import Mathlib

/-!
Shallow embedding of the ARIA email-triage core (aria_brain.py, aria_api.py):
the keyword rule tables, the classifiers, the decision policy, the draft
generator, the analysis record builder, and a pure state-passing model of the
SQLite persistence gateway (save with duplicate detection, follow-up side
table, audit log, status update).

Strings are modelled at the code-point level (`List Char`), which matches
Python string semantics for concatenation, slicing and the `in` substring
test. Lowercasing uses `Char.toLower` (ASCII); every keyword in the rule
tables is ASCII, so matching semantics coincide with Python on the inputs the
tables can ever match.
-/

/-- Holds when the pattern is an initial segment of the text. -/
def takesLead : List Char → List Char → Bool
  | [], _ => true
  | _ :: _, [] => false
  | p :: ps, t :: ts => p == t && takesLead ps ts

/-- Python's `pat in text`: the pattern occurs as a contiguous subsequence
of the text. -/
def occursIn (pat : List Char) : List Char → Bool
  | [] => takesLead pat []
  | t :: ts => takesLead pat (t :: ts) || occursIn pat ts

/-- The `text = (subject + " " + body).lower()` value shared by
`classify_category` and `classify_urgency`, at the code-point level. -/
def emailText (subject body : String) : List Char :=
  (subject.data ++ ' ' :: body.data).map Char.toLower

/-- CATEGORY_RULES from aria_brain.py: an insertion-ordered dict of
category → keyword list; iteration order is declaration order. -/
def CATEGORY_RULES : List (String × List String) := [
  ("VENDOR_SECURITY", [
      "security annex", "vendor", "supplier", "tprm", "third party",
      "risk assessment", "security review", "questionnaire", "saq",
      "penetration test", "pentest", "iso 27001", "soc2", "soc 2"]),
  ("ESCALATION", [
      "escalat", "urgent", "critical", "breach", "incident",
      "violation", "non-complian", "overdue", "immediate"]),
  ("MEETING_REQUEST", [
      "meeting", "call", "invite", "calendar", "schedule",
      "catch up", "sync", "teams call", "zoom"]),
  ("LEGAL", [
      "contract", "legal", "clause", "gdpr", "privacy",
      "data protection", "dpa", "agreement", "terms"]),
  ("PROCUREMENT", [
      "purchase", "procurement", "po ", "invoice", "budget",
      "cost", "payment", "sourcing"]),
  ("TEAM_MANAGEMENT", [
      "team", "my report", "direct report", "performance",
      "leave", "vacation", "pto", "absence"]),
  ("NEWSLETTER", [
      "unsubscribe", "newsletter", "digest", "weekly update",
      "monthly report", "bulletin", "no-reply", "noreply"]),
  ("FOLLOW_UP_NEEDED", [
      "follow up", "following up", "reminder", "pending",
      "still waiting", "no response", "chasing"]),
  ("SPAM", [
      "congratulations you won", "click here", "limited offer",
      "free gift", "act now", "verify your account"])]

/-- URGENCY_RULES from aria_brain.py, in the dict's insertion order
(5 down to 1). -/
def URGENCY_RULES : List (Int × List String) := [
  (5, ["breach", "incident", "critical", "immediate action",
       "escalat", "urgent", "asap", "today"]),
  (4, ["overdue", "deadline", "by end of day", "eod",
       "non-complian", "violation", "pending approval"]),
  (3, ["follow up", "reminder", "please review",
       "your input", "feedback needed"]),
  (2, ["fyi", "for your information", "update",
       "newsletter", "digest"]),
  (1, ["unsubscribe", "no-reply", "automatic", "noreply"])]

/-- The `for label, keywords in RULES.items(): if any(kw in text ...)` loop
shared by both classifiers: first entry whose keyword list matches. -/
def ruleLoop {α : Type} (text : List Char) : List (α × List String) → Option α
  | [] => none
  | (label, kws) :: rest =>
      if kws.any (fun kw => occursIn kw.data text) then some label
      else ruleLoop text rest

/-- classify_category from aria_brain.py. -/
def classify_category (subject body : String) : String :=
  (ruleLoop (emailText subject body) CATEGORY_RULES).getD "ADMIN"

/-- classify_urgency from aria_brain.py. -/
def classify_urgency (subject body : String) : Int :=
  (ruleLoop (emailText subject body) URGENCY_RULES).getD 2

/-- Whether the keyword list declared for urgency level `u` matches `text`
(the level's entry in URGENCY_RULES, empty for undeclared levels). -/
def urgencyMatches (u : Int) (text : List Char) : Bool :=
  ((URGENCY_RULES.lookup u).getD []).any (fun kw => occursIn kw.data text)

/-- suggest_action from aria_brain.py. -/
def suggest_action (category : String) (urgency : Int) : String :=
  if 4 ≤ urgency then "REPLY_NOW"
  else if category = "NEWSLETTER" ∨ category = "SPAM" then "ARCHIVE"
  else if category = "MEETING_REQUEST" then "SCHEDULE"
  else if category = "FOLLOW_UP_NEEDED" then "FOLLOW_UP"
  else if category = "TEAM_MANAGEMENT" then "DELEGATE"
  else "REPLY_NOW"

/-- requires_gabriela from aria_brain.py (the spec's `requires_human`). -/
def requires_gabriela (category : String) (urgency : Int) : Bool :=
  if 4 ≤ urgency then true
  else if category = "ESCALATION" ∨ category = "VENDOR_SECURITY" ∨ category = "LEGAL" then true
  else false

/-- An apostrophe, spelled out so the draft/summary templates can embed it. -/
def apos : String := ⟨[Char.ofNat 39]⟩

/-- generate_summary from aria_brain.py: `body[:300]` then the first 150
characters interpolated into the template. -/
def generate_summary (sender subject body : String) : String :=
  let body_short := if body.length > 300 then body.take 300 else body
  "Email from " ++ sender ++ " regarding " ++ apos ++ subject ++ apos ++ ". "
    ++ body_short.take 150 ++ "..."

/-- Characters of `sender.split("@")[0]`: everything before the first `@`. -/
def upToAt : List Char → List Char
  | [] => []
  | c :: cs => if c == '@' then [] else c :: upToAt cs

/-- Python `str.title()` over code points: an alphabetic character is
uppercased after a non-alphabetic one and lowercased otherwise. The flag
carries whether the previous character was alphabetic. -/
def pyTitleGo : Bool → List Char → List Char
  | _, [] => []
  | prev, c :: cs =>
      (if c.isAlpha then (if prev then c.toLower else c.toUpper) else c)
        :: pyTitleGo c.isAlpha cs

/-- The `sender.split("@")[0].replace(".", " ").title()` display name of
generate_draft_reply. -/
def sender_name (sender : String) : String :=
  ⟨pyTitleGo false ((upToAt sender.data).map (fun c => if c == '.' then ' ' else c))⟩

/-- The MEETING_REQUEST reply template of generate_draft_reply. -/
def meetingTemplate (sender : String) : String :=
  "Hi " ++ sender_name sender ++ ",\n\nThank you for reaching out. "
    ++ "I" ++ apos ++ "d be happy to connect. Please feel free to send "
    ++ "a calendar invite at your convenience, or let me know "
    ++ "your preferred time slots.\n\nBest regards,\nGabriela"

/-- The VENDOR_SECURITY reply template of generate_draft_reply. -/
def vendorTemplate (sender subject : String) : String :=
  "Hi " ++ sender_name sender ++ ",\n\nThank you for your message regarding "
    ++ subject ++ ". I will review the details and get back to you "
    ++ "with next steps within 2 business days.\n\n"
    ++ "Best regards,\nGabriela\nTPRM Security Annex Lead | Nestlé"

/-- The priority (escalation / urgency ≥ 4) reply template of
generate_draft_reply. -/
def priorityTemplate (sender : String) : String :=
  "Hi " ++ sender_name sender ++ ",\n\nThank you for flagging this. "
    ++ "I am treating this as a priority and will respond "
    ++ "with a full update shortly.\n\n"
    ++ "Best regards,\nGabriela\nTPRM Security Annex Lead | Nestlé"

/-- The default reply template of generate_draft_reply. -/
def defaultTemplate (sender : String) : String :=
  "Hi " ++ sender_name sender ++ ",\n\nThank you for your email. "
    ++ "I will review and come back to you shortly.\n\n"
    ++ "Best regards,\nGabriela\nTPRM Security Annex Lead | Nestlé"

/-- generate_draft_reply from aria_brain.py; the Python `None` return is
`none`. Branches in source order. -/
def generate_draft_reply (category sender subject : String) (urgency : Int) :
    Option String :=
  if category = "MEETING_REQUEST" then some (meetingTemplate sender)
  else if category = "VENDOR_SECURITY" then some (vendorTemplate sender subject)
  else if category = "ESCALATION" ∨ 4 ≤ urgency then some (priorityTemplate sender)
  else if category = "NEWSLETTER" ∨ category = "SPAM" then none
  else some (defaultTemplate sender)

/-- The fixed vocabulary of extract_entities. -/
def ENTITY_KEYWORDS : List String :=
  ["Nestlé", "TPRM", "Security Annex", "GDPR",
   "ISO 27001", "SOC2", "ALSEA", "PayPal"]

/-- extract_entities from aria_brain.py: case-insensitive containment scan
over the fixed vocabulary, matches in vocabulary order. The source returns
the list serialized with `json.dumps`; the serialization is elided and the
list kept. -/
def extract_entities (subject body : String) : List String :=
  let text := subject.data ++ ' ' :: body.data
  ENTITY_KEYWORDS.filter
    (fun kw => occursIn (kw.data.map Char.toLower) (text.map Char.toLower))

/-- The analysis-result dict built by analyze_email and consumed by the save
helpers: one field per dict key, with the Python `None`-able fields as
`Option`. `RequiresGabriela` is the stored 0/1 integer. -/
structure EmailData where
  ThreadID : String
  Sender : String
  Subject : String
  BodyPreview : String
  ReceivedAt : String
  Category : String
  Urgency : Int
  Summary : String
  SuggestedAction : String
  DelegateTo : Option String
  DraftReply : Option String
  FollowUpDate : Option String
  KeyEntities : List String
  RequiresGabriela : Nat
  Status : String
deriving DecidableEq, Repr

/-- analyze_email from aria_brain.py (the rule-based pipeline). -/
def analyze_email (sender subject body received_at thread_id : String) :
    EmailData :=
  let category := classify_category subject body
  let urgency := classify_urgency subject body
  { ThreadID := thread_id
    Sender := sender
    Subject := subject
    BodyPreview := body.take 500
    ReceivedAt := received_at
    Category := category
    Urgency := urgency
    Summary := generate_summary sender subject body
    SuggestedAction := suggest_action category urgency
    DelegateTo := none
    DraftReply := generate_draft_reply category sender subject urgency
    FollowUpDate := none
    KeyEntities := extract_entities subject body
    RequiresGabriela := if requires_gabriela category urgency then 1 else 0
    Status := "PENDING" }

/-- One row of the ARIA_Emails table: the inserted dict fields plus the
generated EmailID and the columns only a status update writes. -/
structure EmailRow where
  EmailID : Nat
  ThreadID : String
  Sender : String
  Subject : String
  BodyPreview : String
  ReceivedAt : String
  Category : String
  Urgency : Int
  Summary : String
  SuggestedAction : String
  DelegateTo : Option String
  DraftReply : Option String
  FollowUpDate : Option String
  KeyEntities : List String
  RequiresGabriela : Nat
  Status : String
  StatusUpdatedAt : Option String
  Notes : Option String
deriving DecidableEq, Repr

/-- One row of the ARIA_AuditLog table. The creation entry leaves OldStatus
NULL; both inserts supply a NewStatus. -/
structure AuditEntry where
  EmailID : Nat
  Action : String
  OldStatus : Option String
  NewStatus : String
deriving DecidableEq, Repr

/-- The SQLite store: emails, the ARIA_FollowUps side table of
(EmailID, FollowUpDate) pairs, the audit log, and the next rowid. -/
structure DB where
  emails : List EmailRow
  followUps : List (Nat × String)
  auditLog : List AuditEntry
  nextId : Nat
deriving DecidableEq, Repr

/-- A fresh store; SQLite rowids start at 1. -/
def emptyDB : DB := ⟨[], [], [], 1⟩

/-- The INSERT INTO ARIA_Emails row for dict `d` under rowid `id`;
StatusUpdatedAt and Notes are not in the column list, so NULL. -/
def rowOfData (id : Nat) (d : EmailData) : EmailRow :=
  { EmailID := id, ThreadID := d.ThreadID, Sender := d.Sender
    Subject := d.Subject, BodyPreview := d.BodyPreview
    ReceivedAt := d.ReceivedAt, Category := d.Category, Urgency := d.Urgency
    Summary := d.Summary, SuggestedAction := d.SuggestedAction
    DelegateTo := d.DelegateTo, DraftReply := d.DraftReply
    FollowUpDate := d.FollowUpDate, KeyEntities := d.KeyEntities
    RequiresGabriela := d.RequiresGabriela, Status := d.Status
    StatusUpdatedAt := none, Notes := none }

/-- Python truthiness of an optional string: `data.get("FollowUpDate")` is
falsy for both `None` and the empty string. -/
def pyTruthy : Option String → Bool
  | none => false
  | some s => !(s == "")

/-- save_to_db from aria_api.py: existence check on exact
(Subject, Sender) equality, returning -1 as the duplicate signal; otherwise
insert the row, conditionally insert a FollowUp, and append a CREATED audit
entry. The returned Int is the source's Python int return. -/
def save_to_db (db : DB) (d : EmailData) : Int × DB :=
  if db.emails.any (fun r => r.Subject == d.Subject && r.Sender == d.Sender) then
    (-1, db)
  else
    let id := db.nextId
    let db1 : DB := { db with emails := db.emails ++ [rowOfData id d], nextId := id + 1 }
    let db2 : DB :=
      if pyTruthy d.FollowUpDate then
        { db1 with followUps := db1.followUps ++ [(id, d.FollowUpDate.getD "")] }
      else db1
    let db3 : DB :=
      { db2 with auditLog := db2.auditLog ++ [⟨id, "CREATED", none, "PENDING"⟩] }
    ((id : Int), db3)

/-- save_email from aria_brain.py: unconditional insert (no duplicate check,
no audit entry), conditional FollowUp insert, returns the new rowid. -/
def save_email (db : DB) (d : EmailData) : Nat × DB :=
  let id := db.nextId
  let db1 : DB := { db with emails := db.emails ++ [rowOfData id d], nextId := id + 1 }
  let db2 : DB :=
    if pyTruthy d.FollowUpDate then
      { db1 with followUps := db1.followUps ++ [(id, d.FollowUpDate.getD "")] }
    else db1
  (id, db2)

/-- The StatusUpdate request body of the /status route. -/
structure StatusUpdate where
  email_id : Nat
  new_status : String
  notes : String
deriving DecidableEq, Repr

/-- The JSON object the /status route returns. -/
structure StatusResponse where
  status : String
  email_id : Nat
  new_status : String
deriving DecidableEq, Repr

/-- update_status from aria_api.py: read the old status (None when the id is
absent), run the UPDATE (touching every row whose EmailID matches — zero rows
when the id is absent), append a STATUS_CHANGE audit entry, and return the
success object. `now` stands for `datetime.now().isoformat()`. -/
def update_status (db : DB) (u : StatusUpdate) (now : String) :
    StatusResponse × DB :=
  let old := (db.emails.find? (fun r => r.EmailID == u.email_id)).map
    (fun r => r.Status)
  let emails := db.emails.map (fun r =>
    if r.EmailID == u.email_id then
      { r with Status := u.new_status, StatusUpdatedAt := some now,
               Notes := some u.notes }
    else r)
  (⟨"success", u.email_id, u.new_status⟩,
   { db with emails := emails,
             auditLog := db.auditLog ++ [⟨u.email_id, "STATUS_CHANGE", old, u.new_status⟩] })

/-! ## Shared lemmas about the classifier loop -/

/-- The loop returns the label of the first matching entry. -/
theorem ruleLoop_eq_of_first {α : Type} (text : List Char)
    (rules : List (α × List String)) (i : Nat) (e : α × List String)
    (hget : rules.get? i = some e)
    (hm : e.2.any (fun kw => occursIn kw.data text) = true)
    (hprev : ∀ j e', j < i → rules.get? j = some e' →
        e'.2.any (fun kw => occursIn kw.data text) = false) :
    ruleLoop text rules = some e.1 := by
  induction rules generalizing i with
  | nil => simp at hget
  | cons hd tl ih =>
    obtain ⟨lab, kws⟩ := hd
    cases i with
    | zero =>
      simp only [List.get?_cons_zero, Option.some.injEq] at hget
      subst hget
      simp [ruleLoop, hm]
    | succ n =>
      have h0 : kws.any (fun kw => occursIn kw.data text) = false :=
        hprev 0 (lab, kws) (Nat.succ_pos n) rfl
      simp only [ruleLoop, h0, Bool.false_eq_true, if_false]
      exact ih n (by simpa using hget)
        (fun j e' hj hg => hprev (j + 1) e' (by omega) (by simpa using hg))

/-- The loop returns nothing when no entry matches. -/
theorem ruleLoop_eq_none {α : Type} (text : List Char)
    (rules : List (α × List String))
    (h : ∀ e ∈ rules, e.2.any (fun kw => occursIn kw.data text) = false) :
    ruleLoop text rules = none := by
  induction rules with
  | nil => rfl
  | cons hd tl ih =>
    obtain ⟨lab, kws⟩ := hd
    have h0 : kws.any (fun kw => occursIn kw.data text) = false :=
      h (lab, kws) (List.mem_cons_self _ _)
    simp only [ruleLoop, h0, Bool.false_eq_true, if_false]
    exact ih (fun e he => h e (List.mem_cons_of_mem _ he))

/-- Whatever the loop returns is the label of some entry of the table. -/
theorem ruleLoop_mem {α : Type} (text : List Char)
    (rules : List (α × List String)) (a : α)
    (h : ruleLoop text rules = some a) : ∃ e ∈ rules, e.1 = a := by
  induction rules with
  | nil => simp [ruleLoop] at h
  | cons hd tl ih =>
    obtain ⟨lab, kws⟩ := hd
    by_cases hc : kws.any (fun kw => occursIn kw.data text) = true
    · simp only [ruleLoop, hc, if_true, Option.some.injEq] at h
      exact ⟨(lab, kws), List.mem_cons_self _ _, h⟩
    · simp only [ruleLoop, hc, if_false] at h
      obtain ⟨e, he, he1⟩ := ih h
      exact ⟨e, List.mem_cons_of_mem _ he, he1⟩

/-! ## Claim theorems -/

/-- C1: classify_category returns, among the category tables whose keyword
list matches the lowercased concatenated text, the one declared earliest in
CATEGORY_RULES; text containing both "security annex" and "urgent" is
classified VENDOR_SECURITY (that entry precedes ESCALATION); with no match
anywhere it returns "ADMIN". -/
theorem category_first_match_policy (subject body : String) :
    (∀ (i : Nat) (e : String × List String), CATEGORY_RULES.get? i = some e →
        e.2.any (fun kw => occursIn kw.data (emailText subject body)) = true →
        (∀ j e', j < i → CATEGORY_RULES.get? j = some e' →
            e'.2.any (fun kw => occursIn kw.data (emailText subject body)) = false) →
        classify_category subject body = e.1)
  ∧ (occursIn "security annex".data (emailText subject body) = true →
     occursIn "urgent".data (emailText subject body) = true →
        classify_category subject body = "VENDOR_SECURITY")
  ∧ ((∀ e ∈ CATEGORY_RULES,
        e.2.any (fun kw => occursIn kw.data (emailText subject body)) = false) →
        classify_category subject body = "ADMIN") := by
  refine ⟨?_, ?_, ?_⟩
  · intro i e hget hm hprev
    have h := ruleLoop_eq_of_first (emailText subject body) CATEGORY_RULES i e hget hm hprev
    simp [classify_category, h]
  · intro hsa _
    have hm : ("VENDOR_SECURITY",
        ["security annex", "vendor", "supplier", "tprm", "third party",
         "risk assessment", "security review", "questionnaire", "saq",
         "penetration test", "pentest", "iso 27001", "soc2", "soc 2"]).2.any
          (fun kw => occursIn kw.data (emailText subject body)) = true := by
      apply List.any_eq_true.mpr
      exact ⟨"security annex", by decide, hsa⟩
    have h := ruleLoop_eq_of_first (emailText subject body) CATEGORY_RULES 0 _ rfl hm
      (fun j e' hj _ => absurd hj (by omega))
    simp [classify_category, h]
  · intro hall
    have h := ruleLoop_eq_none (emailText subject body) CATEGORY_RULES hall
    simp [classify_category, h]

/-- Witness for C1: concrete first-match, tie-break and default runs. -/
theorem category_first_match_policy_witness :
    classify_category "Vendor risk assessment due" "" = "VENDOR_SECURITY" ∧
    classify_category "Security Annex update" "this is urgent" = "VENDOR_SECURITY" ∧
    classify_category "hello" "just saying hi" = "ADMIN" := by
  refine ⟨?_, ?_, ?_⟩
  · exact (category_first_match_policy "Vendor risk assessment due" "").1 0 _ rfl
      (by decide) (fun j e' hj _ => absurd hj (by omega))
  · exact (category_first_match_policy "Security Annex update" "this is urgent").2.1
      (by decide) (by decide)
  · exact (category_first_match_policy "hello" "just saying hi").2.2 (by decide)

/-- C2: classify_urgency returns the highest urgency level (5 down to 1)
whose keyword list matches the lowercased concatenated text, 2 when none
matches, and its result is always between 1 and 5. -/
theorem urgency_descending_policy (subject body : String) :
    (∀ u : Int, 1 ≤ u → u ≤ 5 →
        urgencyMatches u (emailText subject body) = true →
        (∀ v : Int, u < v → v ≤ 5 →
            urgencyMatches v (emailText subject body) = false) →
        classify_urgency subject body = u)
  ∧ ((∀ u : Int, 1 ≤ u → u ≤ 5 →
        urgencyMatches u (emailText subject body) = false) →
        classify_urgency subject body = 2)
  ∧ (1 ≤ classify_urgency subject body ∧ classify_urgency subject body ≤ 5) := by
  refine ⟨?_, ?_, ?_⟩
  · intro u h1 h5 hm hv
    interval_cases u
    · have h2 := hv 2 (by omega) (by omega)
      have h3 := hv 3 (by omega) (by omega)
      have h4 := hv 4 (by omega) (by omega)
      have h5' := hv 5 (by omega) (by omega)
      simp [urgencyMatches, URGENCY_RULES, List.lookup] at hm h2 h3 h4 h5'
      simp [classify_urgency, URGENCY_RULES, ruleLoop, hm, h2, h3, h4, h5']
    · have h3 := hv 3 (by omega) (by omega)
      have h4 := hv 4 (by omega) (by omega)
      have h5' := hv 5 (by omega) (by omega)
      simp [urgencyMatches, URGENCY_RULES, List.lookup] at hm h3 h4 h5'
      simp [classify_urgency, URGENCY_RULES, ruleLoop, hm, h3, h4, h5']
    · have h4 := hv 4 (by omega) (by omega)
      have h5' := hv 5 (by omega) (by omega)
      simp [urgencyMatches, URGENCY_RULES, List.lookup] at hm h4 h5'
      simp [classify_urgency, URGENCY_RULES, ruleLoop, hm, h4, h5']
    · have h5' := hv 5 (by omega) (by omega)
      simp [urgencyMatches, URGENCY_RULES, List.lookup] at hm h5'
      simp [classify_urgency, URGENCY_RULES, ruleLoop, hm, h5']
    · simp [urgencyMatches, URGENCY_RULES, List.lookup] at hm
      simp [classify_urgency, URGENCY_RULES, ruleLoop, hm]
  · intro hall
    have h1 := hall 1 (by omega) (by omega)
    have h2 := hall 2 (by omega) (by omega)
    have h3 := hall 3 (by omega) (by omega)
    have h4 := hall 4 (by omega) (by omega)
    have h5 := hall 5 (by omega) (by omega)
    simp [urgencyMatches, URGENCY_RULES, List.lookup] at h1 h2 h3 h4 h5
    simp [classify_urgency, URGENCY_RULES, ruleLoop, h1, h2, h3, h4, h5]
  · rcases heq : ruleLoop (emailText subject body) URGENCY_RULES with _ | a
    · simp [classify_urgency, heq]
    · obtain ⟨e, he, he1⟩ := ruleLoop_mem _ _ _ heq
      have hres : classify_urgency subject body = a := by
        simp [classify_urgency, heq]
      rw [hres, ← he1]
      simp [URGENCY_RULES] at he
      rcases he with h | h | h | h | h <;> rw [h] <;> simp

/-- Witness for C2: a highest-level match and an all-miss default run. -/
theorem urgency_descending_policy_witness :
    classify_urgency "urgent matter" "" = 5 ∧
    classify_urgency "hello" "just saying hi" = 2 := by
  constructor
  · exact (urgency_descending_policy "urgent matter" "").1 5 (by omega) (by omega)
      (by decide) (fun v hv hv' => absurd hv (by omega))
  · exact (urgency_descending_policy "hello" "just saying hi").2.1
      (by intro u h1 h5; interval_cases u <;> decide)

/-- C4: suggest_action returns REPLY_NOW whenever urgency ≥ 4 regardless of
category (in particular for NEWSLETTER at urgency 5); below 4 it returns
ARCHIVE for NEWSLETTER or SPAM, SCHEDULE for MEETING_REQUEST, FOLLOW_UP for
FOLLOW_UP_NEEDED, DELEGATE for TEAM_MANAGEMENT, and REPLY_NOW for every other
category. -/
theorem suggest_action_policy (category : String) (urgency : Int) :
    (4 ≤ urgency → suggest_action category urgency = "REPLY_NOW")
  ∧ (urgency < 4 → (category = "NEWSLETTER" ∨ category = "SPAM") →
        suggest_action category urgency = "ARCHIVE")
  ∧ (urgency < 4 → category = "MEETING_REQUEST" →
        suggest_action category urgency = "SCHEDULE")
  ∧ (urgency < 4 → category = "FOLLOW_UP_NEEDED" →
        suggest_action category urgency = "FOLLOW_UP")
  ∧ (urgency < 4 → category = "TEAM_MANAGEMENT" →
        suggest_action category urgency = "DELEGATE")
  ∧ (urgency < 4 →
        category ∉ ["NEWSLETTER", "SPAM", "MEETING_REQUEST",
                    "FOLLOW_UP_NEEDED", "TEAM_MANAGEMENT"] →
        suggest_action category urgency = "REPLY_NOW")
  ∧ suggest_action "NEWSLETTER" 5 = "REPLY_NOW" := by
  refine ⟨?_, ?_, ?_, ?_, ?_, ?_, by decide⟩
  · intro h
    simp [suggest_action, h]
  · intro h hc
    have h4 : ¬ (4 : Int) ≤ urgency := by omega
    rcases hc with rfl | rfl <;> simp [suggest_action, h4]
  · intro h hc
    have h4 : ¬ (4 : Int) ≤ urgency := by omega
    subst hc; simp [suggest_action, h4]
  · intro h hc
    have h4 : ¬ (4 : Int) ≤ urgency := by omega
    subst hc; simp [suggest_action, h4]
  · intro h hc
    have h4 : ¬ (4 : Int) ≤ urgency := by omega
    subst hc; simp [suggest_action, h4]
  · intro h hc
    have h4 : ¬ (4 : Int) ≤ urgency := by omega
    simp only [List.mem_cons, List.not_mem_nil, or_false, not_or] at hc
    obtain ⟨hc1, hc2, hc3, hc4, hc5⟩ := hc
    simp [suggest_action, h4, hc1, hc2, hc3, hc4, hc5]

/-- Witness for C4: one concrete run per branch of the policy. -/
theorem suggest_action_policy_witness :
    suggest_action "LEGAL" 4 = "REPLY_NOW" ∧
    suggest_action "SPAM" 2 = "ARCHIVE" ∧
    suggest_action "MEETING_REQUEST" 2 = "SCHEDULE" ∧
    suggest_action "FOLLOW_UP_NEEDED" 2 = "FOLLOW_UP" ∧
    suggest_action "TEAM_MANAGEMENT" 2 = "DELEGATE" ∧
    suggest_action "ADMIN" 2 = "REPLY_NOW" := by
  refine ⟨?_, ?_, ?_, ?_, ?_, ?_⟩
  · exact (suggest_action_policy "LEGAL" 4).1 (by omega)
  · exact (suggest_action_policy "SPAM" 2).2.1 (by omega) (Or.inr rfl)
  · exact (suggest_action_policy "MEETING_REQUEST" 2).2.2.1 (by omega) rfl
  · exact (suggest_action_policy "FOLLOW_UP_NEEDED" 2).2.2.2.1 (by omega) rfl
  · exact (suggest_action_policy "TEAM_MANAGEMENT" 2).2.2.2.2.1 (by omega) rfl
  · exact (suggest_action_policy "ADMIN" 2).2.2.2.2.2.1 (by omega) (by decide)

/-- C5: requires_gabriela (the spec's requires_human) is true exactly when
urgency ≥ 4 or the category is ESCALATION, VENDOR_SECURITY or LEGAL; in
particular it is false for ("PROCUREMENT", 2) and true for ("LEGAL", 1). -/
theorem requires_human_policy (category : String) (urgency : Int) :
    (requires_gabriela category urgency = true ↔
        4 ≤ urgency ∨ category = "ESCALATION" ∨ category = "VENDOR_SECURITY"
          ∨ category = "LEGAL")
  ∧ requires_gabriela "PROCUREMENT" 2 = false
  ∧ requires_gabriela "LEGAL" 1 = true := by
  refine ⟨?_, by decide, by decide⟩
  by_cases h4 : (4 : Int) ≤ urgency
  · simp [requires_gabriela, h4]
  · by_cases hc : category = "ESCALATION" ∨ category = "VENDOR_SECURITY"
        ∨ category = "LEGAL"
    · simp [requires_gabriela, h4, hc]
    · simp [requires_gabriela, h4, hc]

/-- C9: for NEWSLETTER or SPAM at urgency ≥ 4, generate_draft_reply returns
the non-absent priority (escalation) template, because the
ESCALATION-or-urgency≥4 branch precedes the NEWSLETTER/SPAM branch; the
absent reply for these categories happens exactly when urgency < 4. -/
theorem draft_priority_overrides_archive (sender subject category : String)
    (urgency : Int)
    (hc : category = "NEWSLETTER" ∨ category = "SPAM") :
    (4 ≤ urgency →
        generate_draft_reply category sender subject urgency
          = some (priorityTemplate sender))
  ∧ (generate_draft_reply category sender subject urgency = none ↔
        urgency < 4) := by
  constructor
  · intro h4
    rcases hc with rfl | rfl <;> simp [generate_draft_reply, h4]
  · by_cases h4 : (4 : Int) ≤ urgency
    · rcases hc with rfl | rfl <;> simp [generate_draft_reply, h4]
    · rcases hc with rfl | rfl <;>
        simp [generate_draft_reply, h4] <;> omega

/-- Witness for C9: a SPAM email at urgency 5 gets the priority template; a
NEWSLETTER email at urgency 2 gets no draft. -/
theorem draft_priority_overrides_archive_witness :
    generate_draft_reply "SPAM" "a.b@c.com" "subj" 5
      = some (priorityTemplate "a.b@c.com") ∧
    generate_draft_reply "NEWSLETTER" "a.b@c.com" "subj" 2 = none := by
  constructor
  · exact (draft_priority_overrides_archive "a.b@c.com" "subj" "SPAM" 5
      (Or.inr rfl)).1 (by omega)
  · exact (draft_priority_overrides_archive "a.b@c.com" "subj" "NEWSLETTER" 2
      (Or.inl rfl)).2.mpr (by omega)

/-- Mapping a function that fixes every member of a list leaves it
unchanged. -/
theorem listMap_eq_self {α : Type} {l : List α} {f : α → α}
    (h : ∀ a ∈ l, f a = a) : l.map f = l := by
  induction l with
  | nil => rfl
  | cons hd tl ih =>
    simp only [List.map_cons, h hd (List.mem_cons_self _ _)]
    rw [ih (fun a ha => h a (List.mem_cons_of_mem _ ha))]

/-- A concrete analysis record used by the persistence witnesses. -/
def sampleData : EmailData :=
  { ThreadID := "T1", Sender := "a@b", Subject := "s", BodyPreview := ""
    ReceivedAt := "2026-01-01", Category := "ADMIN", Urgency := 2
    Summary := "", SuggestedAction := "REPLY_NOW", DelegateTo := none
    DraftReply := none, FollowUpDate := none, KeyEntities := []
    RequiresGabriela := 0, Status := "PENDING" }

/-- sampleData with a follow-up date set. -/
def sampleDataFU : EmailData :=
  { sampleData with Subject := "s2", FollowUpDate := some "2026-02-01" }

/-- The duplicate branch of save_to_db: with the (Subject, Sender) existence
check succeeding, the call returns -1 and the store verbatim. -/
theorem save_to_db_dup {db : DB} {d : EmailData}
    (h : db.emails.any (fun r => r.Subject == d.Subject && r.Sender == d.Sender)
        = true) :
    save_to_db db d = (-1, db) := by
  rw [save_to_db, if_pos h]

/-- The accepting branch of save_to_db inserts exactly the new row at the end
of the email table. -/
theorem save_to_db_emails {db : DB} {d : EmailData}
    (h : db.emails.any (fun r => r.Subject == d.Subject && r.Sender == d.Sender)
        = false) :
    (save_to_db db d).2.emails = db.emails ++ [rowOfData db.nextId d] := by
  rw [save_to_db, if_neg (by simp [h])]
  by_cases hft : pyTruthy d.FollowUpDate = true
  · simp [hft]
  · simp [hft]

/-- C3: save_to_db with a record whose exact (Sender, Subject) pair already
exists returns the duplicate signal -1 and writes nothing; saving two records
with identical (Sender, Subject) once each into a store without that pair
leaves the second save returning -1, the store untouched by it, and exactly
one row for that pair. -/
theorem save_duplicate_skip (db : DB) (d1 d2 : EmailData) :
    (db.emails.any (fun r => r.Subject == d1.Subject && r.Sender == d1.Sender)
        = true →
      save_to_db db d1 = (-1, db))
  ∧ (d1.Sender = d2.Sender → d1.Subject = d2.Subject →
     db.emails.any (fun r => r.Subject == d1.Subject && r.Sender == d1.Sender)
        = false →
      (save_to_db (save_to_db db d1).2 d2).1 = -1
      ∧ (save_to_db (save_to_db db d1).2 d2).2 = (save_to_db db d1).2
      ∧ (save_to_db db d1).2.emails.countP
          (fun r => r.Subject == d2.Subject && r.Sender == d2.Sender) = 1) := by
  constructor
  · intro h
    exact save_to_db_dup h
  · intro hS hJ h0
    have hemails := save_to_db_emails h0
    have hdup : ((save_to_db db d1).2.emails.any
        (fun r => r.Subject == d2.Subject && r.Sender == d2.Sender)) = true := by
      rw [hemails, List.any_append]
      have hr : ([rowOfData db.nextId d1].any
          (fun r => r.Subject == d2.Subject && r.Sender == d2.Sender)) = true := by
        simp [rowOfData, hJ, hS]
      rw [hr, Bool.or_true]
    have hsecond := save_to_db_dup hdup
    refine ⟨by rw [hsecond], by rw [hsecond], ?_⟩
    have h0' : db.emails.any
        (fun r => r.Subject == d2.Subject && r.Sender == d2.Sender) = false := by
      simp only [← hJ, ← hS]
      exact h0
    have hz : db.emails.countP
        (fun r => r.Subject == d2.Subject && r.Sender == d2.Sender) = 0 := by
      apply List.countP_eq_zero.mpr
      intro a ha
      simpa using (List.any_eq_false.mp h0') a ha
    rw [hemails, List.countP_append, hz]
    simp [List.countP_cons, rowOfData, hJ, hS]

/-- Witness for C3: two saves of the same record into an empty store. -/
theorem save_duplicate_skip_witness :
    save_to_db (save_to_db emptyDB sampleData).2 sampleData
      = (-1, (save_to_db emptyDB sampleData).2) ∧
    (save_to_db (save_to_db emptyDB sampleData).2 sampleData).1 = -1 ∧
    (save_to_db emptyDB sampleData).2.emails.countP
      (fun r => r.Subject == sampleData.Subject && r.Sender == sampleData.Sender)
      = 1 := by
  refine ⟨?_, ?_, ?_⟩
  · exact (save_duplicate_skip (save_to_db emptyDB sampleData).2 sampleData
      sampleData).1 (by decide)
  · exact ((save_duplicate_skip emptyDB sampleData sampleData).2 rfl rfl
      (by decide)).1
  · exact ((save_duplicate_skip emptyDB sampleData sampleData).2 rfl rfl
      (by decide)).2.2

/-- C7 (amended): update_status with an identifier that is absent from the
store does not surface a NotFound; it returns the plain success response,
leaves every email row and the follow-up table unchanged, and still appends a
STATUS_CHANGE audit entry whose OldStatus is absent. -/
theorem update_status_missing_id (db : DB) (u : StatusUpdate) (now : String)
    (habs : db.emails.any (fun r => r.EmailID == u.email_id) = false) :
    (update_status db u now).1.status = "success"
  ∧ (update_status db u now).2.emails = db.emails
  ∧ (update_status db u now).2.followUps = db.followUps
  ∧ (update_status db u now).2.auditLog
      = db.auditLog ++ [⟨u.email_id, "STATUS_CHANGE", none, u.new_status⟩] := by
  have hall := List.any_eq_false.mp habs
  have hfind : db.emails.find? (fun r => r.EmailID == u.email_id) = none :=
    List.find?_eq_none.mpr (fun x hx => hall x hx)
  have hmap : db.emails.map (fun r =>
      if r.EmailID == u.email_id then
        { r with Status := u.new_status, StatusUpdatedAt := some now,
                 Notes := some u.notes }
      else r) = db.emails := by
    apply listMap_eq_self
    intro a ha
    have hne : (a.EmailID == u.email_id) = false := by
      simpa using hall a ha
    simp [hne]
  refine ⟨rfl, ?_, rfl, ?_⟩
  · simp only [update_status]
    exact hmap
  · simp [update_status, hfind]

/-- Witness for C7 (amended): a status update against an empty store. -/
theorem update_status_missing_id_witness :
    (update_status emptyDB ⟨1, "DONE", ""⟩ "2026-10-12T00:00:00").1.status
      = "success"
  ∧ (update_status emptyDB ⟨1, "DONE", ""⟩ "2026-10-12T00:00:00").2.emails
      = emptyDB.emails
  ∧ (update_status emptyDB ⟨1, "DONE", ""⟩ "2026-10-12T00:00:00").2.followUps
      = emptyDB.followUps
  ∧ (update_status emptyDB ⟨1, "DONE", ""⟩ "2026-10-12T00:00:00").2.auditLog
      = emptyDB.auditLog ++ [⟨1, "STATUS_CHANGE", none, "DONE"⟩] :=
  update_status_missing_id emptyDB ⟨1, "DONE", ""⟩ "2026-10-12T00:00:00"
    (by decide)

/-- Counterexample for C7 as stated: updating the status of id 1 in an empty
store does not fail with a surfaced NotFound — the route answers with the
generic success object — and the store is not left unchanged: an audit entry
is appended. -/
theorem update_status_missing_id_counterexample :
    (update_status emptyDB ⟨1, "DONE", ""⟩ "2026-10-12T00:00:00").1.status
      = "success"
  ∧ (update_status emptyDB ⟨1, "DONE", ""⟩ "2026-10-12T00:00:00").2 ≠ emptyDB := by
  constructor
  · rfl
  · decide

/-- C8: a record accepted by save_to_db (no duplicate) creates exactly one
FollowUp entry when its FollowUpDate carries a date and zero when it is
absent. (The source tests Python truthiness, so a date is a non-empty
string.) -/
theorem save_followup_creation (db : DB) (d : EmailData)
    (hnd : db.emails.any (fun r => r.Subject == d.Subject && r.Sender == d.Sender)
        = false) :
    (∀ s : String, d.FollowUpDate = some s → s ≠ "" →
        (save_to_db db d).2.followUps = db.followUps ++ [(db.nextId, s)])
  ∧ (d.FollowUpDate = none →
        (save_to_db db d).2.followUps = db.followUps) := by
  constructor
  · intro s hs hne
    have ht : pyTruthy (some s) = true := by
      simp [pyTruthy, hne]
    simp [save_to_db, hnd, hs, ht]
  · intro hn
    have ht : pyTruthy d.FollowUpDate = false := by
      simp [pyTruthy, hn]
    simp [save_to_db, hnd, ht]

/-- Witness for C8: a dated record creates one follow-up, an undated one
creates none. -/
theorem save_followup_creation_witness :
    (save_to_db emptyDB sampleDataFU).2.followUps
      = emptyDB.followUps ++ [(emptyDB.nextId, "2026-02-01")] ∧
    (save_to_db emptyDB sampleData).2.followUps = emptyDB.followUps := by
  constructor
  · exact (save_followup_creation emptyDB sampleDataFU (by decide)).1
      "2026-02-01" rfl (by decide)
  · exact (save_followup_creation emptyDB sampleData (by decide)).2 rfl

/-- C10: the rule-based analyze_email always produces an absent DelegateTo
and an absent FollowUpDate, so saving its record through save_email never
creates a FollowUp entry — even when the SuggestedAction is DELEGATE, no
delegation target is carried. -/
theorem rule_pipeline_no_delegation
    (sender subject body received_at thread_id : String) (db : DB) :
    (analyze_email sender subject body received_at thread_id).DelegateTo = none
  ∧ (analyze_email sender subject body received_at thread_id).FollowUpDate = none
  ∧ (save_email db (analyze_email sender subject body received_at thread_id)).2.followUps
      = db.followUps := by
  refine ⟨rfl, rfl, ?_⟩
  have hfu : (analyze_email sender subject body received_at thread_id).FollowUpDate
      = none := rfl
  simp [save_email, hfu, pyTruthy]

/-! ## The weekly-digest scenario (C6) -/

/-- A pattern leading a list still leads it after an extension on the
right. -/
theorem takesLead_append (p as bs : List Char) (h : takesLead p as = true) :
    takesLead p (as ++ bs) = true := by
  induction p generalizing as with
  | nil => rfl
  | cons c cs ih =>
    cases as with
    | nil => simp [takesLead] at h
    | cons a as' =>
      simp only [takesLead, Bool.and_eq_true] at h
      simp only [List.cons_append, takesLead, Bool.and_eq_true]
      exact ⟨h.1, ih as' h.2⟩

/-- The empty pattern occurs in every list. -/
theorem occursIn_nil_pat (l : List Char) : occursIn [] l = true := by
  cases l <;> simp [occursIn, takesLead]

/-- A pattern occurring in a list still occurs after an extension on the
right. -/
theorem occursIn_append_left (p as bs : List Char) (h : occursIn p as = true) :
    occursIn p (as ++ bs) = true := by
  induction as with
  | nil =>
    cases p with
    | nil => exact occursIn_nil_pat bs
    | cons c cs => simp [occursIn, takesLead] at h
  | cons a as' ih =>
    simp only [occursIn, Bool.or_eq_true] at h
    simp only [List.cons_append, occursIn, Bool.or_eq_true]
    rcases h with h | h
    · left
      have := takesLead_append p (a :: as') bs h
      simpa using this
    · right
      exact ih h

/-- The subject line of the weekly-digest scenario. -/
def digestSubject : String := "Your weekly cybersecurity digest is here"

/-- The body of the weekly-digest test email in aria_brain.py; it contains
"Unsubscribe at any time" and matches no rule keyword outside the NEWSLETTER
table and urgency levels 2 and 1. -/
def digestBody : String :=
  "This week in cybersecurity: top 10 threats, industry news, and more. Unsubscribe at any time."

/-- C6 (amended): for the digest subject line and any body matching no
keyword of a category table declared before NEWSLETTER and no keyword of
urgency levels 5, 4 or 3, the rule-based pipeline yields category NEWSLETTER,
urgency 2 — the subject's "digest" keyword matches urgency level 2, which is
examined before level 1's "unsubscribe" — suggested action ARCHIVE, and an
absent draft reply. -/
theorem digest_scenario (sender body received_at thread_id : String)
    (hcat : ∀ j e', j < 6 → CATEGORY_RULES.get? j = some e' →
        e'.2.any (fun kw => occursIn kw.data (emailText digestSubject body))
          = false)
    (h5 : urgencyMatches 5 (emailText digestSubject body) = false)
    (h4 : urgencyMatches 4 (emailText digestSubject body) = false)
    (h3 : urgencyMatches 3 (emailText digestSubject body) = false) :
    (analyze_email sender digestSubject body received_at thread_id).Category
      = "NEWSLETTER"
  ∧ (analyze_email sender digestSubject body received_at thread_id).Urgency = 2
  ∧ (analyze_email sender digestSubject body received_at thread_id).SuggestedAction
      = "ARCHIVE"
  ∧ (analyze_email sender digestSubject body received_at thread_id).DraftReply
      = none := by
  have hsplit : emailText digestSubject body
      = (digestSubject.data.map Char.toLower)
        ++ ((' ' :: body.data).map Char.toLower) := by
    simp [emailText]
  have hsub : occursIn "digest".data (emailText digestSubject body) = true := by
    rw [hsplit]
    exact occursIn_append_left _ _ _ (by decide)
  have hcategory : classify_category digestSubject body = "NEWSLETTER" := by
    have hm : (("NEWSLETTER",
        ["unsubscribe", "newsletter", "digest", "weekly update",
         "monthly report", "bulletin", "no-reply", "noreply"])
          : String × List String).2.any
        (fun kw => occursIn kw.data (emailText digestSubject body)) = true :=
      List.any_eq_true.mpr ⟨"digest", by decide, hsub⟩
    have hloop := ruleLoop_eq_of_first (emailText digestSubject body)
      CATEGORY_RULES 6 _ rfl hm hcat
    simp [classify_category, hloop]
  have hurgency : classify_urgency digestSubject body = 2 := by
    have hm : (((2 : Int),
        ["fyi", "for your information", "update", "newsletter", "digest"])
          : Int × List String).2.any
        (fun kw => occursIn kw.data (emailText digestSubject body)) = true :=
      List.any_eq_true.mpr ⟨"digest", by decide, hsub⟩
    have hprev : ∀ j e', j < 3 → URGENCY_RULES.get? j = some e' →
        e'.2.any (fun kw => occursIn kw.data (emailText digestSubject body))
          = false := by
      intro j e' hj hg
      interval_cases j
      · simp only [URGENCY_RULES, List.get?_cons_zero, Option.some.injEq] at hg
        subst hg
        simp only [urgencyMatches, URGENCY_RULES, List.lookup] at h5
        simpa using h5
      · simp only [URGENCY_RULES, List.get?_cons_succ, List.get?_cons_zero,
          Option.some.injEq] at hg
        subst hg
        simp only [urgencyMatches, URGENCY_RULES, List.lookup] at h4
        simpa using h4
      · simp only [URGENCY_RULES, List.get?_cons_succ, List.get?_cons_zero,
          Option.some.injEq] at hg
        subst hg
        simp only [urgencyMatches, URGENCY_RULES, List.lookup] at h3
        simpa using h3
    have hloop := ruleLoop_eq_of_first (emailText digestSubject body)
      URGENCY_RULES 3 _ rfl hm hprev
    simp [classify_urgency, hloop]
  refine ⟨hcategory, hurgency, ?_, ?_⟩
  · have hfield : (analyze_email sender digestSubject body received_at
        thread_id).SuggestedAction
        = suggest_action (classify_category digestSubject body)
            (classify_urgency digestSubject body) := rfl
    rw [hfield, hcategory, hurgency]
    decide
  · have hfield : (analyze_email sender digestSubject body received_at
        thread_id).DraftReply
        = generate_draft_reply (classify_category digestSubject body) sender
            digestSubject (classify_urgency digestSubject body) := rfl
    rw [hfield, hcategory, hurgency]
    simp only [generate_draft_reply]
    rw [if_neg (by decide), if_neg (by decide), if_neg (by decide)]
    simp

/-- Witness for C6 (amended): the weekly-digest test email of
aria_brain.py. -/
theorem digest_scenario_witness :
    (analyze_email "newsletter@cybersecuritydigest.com" digestSubject
        digestBody "2026-10-12T08:00:00" "TEST-003").Category = "NEWSLETTER"
  ∧ (analyze_email "newsletter@cybersecuritydigest.com" digestSubject
        digestBody "2026-10-12T08:00:00" "TEST-003").Urgency = 2
  ∧ (analyze_email "newsletter@cybersecuritydigest.com" digestSubject
        digestBody "2026-10-12T08:00:00" "TEST-003").SuggestedAction = "ARCHIVE"
  ∧ (analyze_email "newsletter@cybersecuritydigest.com" digestSubject
        digestBody "2026-10-12T08:00:00" "TEST-003").DraftReply = none := by
  apply digest_scenario
  · intro j e' hj hg
    interval_cases j <;>
      (simp only [CATEGORY_RULES, List.get?_cons_zero, List.get?_cons_succ,
        Option.some.injEq] at hg
       subst hg
       decide)
  · decide
  · decide
  · decide

/-- Counterexample for C6 as stated: on the weekly-digest email the
rule-based classify_urgency returns 2, not the claimed 1, because the
subject's "digest" matches the level-2 keyword list before level 1 is
examined. -/
theorem digest_scenario_counterexample :
    classify_urgency digestSubject digestBody = 2
  ∧ ¬ classify_urgency digestSubject digestBody = 1 := by
  constructor
  · decide
  · decide
